import Mathlib

/-!
Verification of the generation-session orchestrator of a browser-based
Pine-Script generator ("Pine Forge").  The definitions below are a shallow
embedding of the client-side state machine found in
`src/pages/Generator.tsx` (the orchestrator: `handleSubmitPrompt`,
`handleSubmitFeedback`, and the activity-polling effect) and of the
submission gates in `src/components/ChatInput.tsx` (the chat input form and
the feedback form).

Modelling conventions:
* React `useState` setters become field updates on an explicit
  `GeneratorState` record; the sequential body of each handler becomes a
  pure function from the pre-state (plus inputs) to the post-state.
* The transport client (`apiClient`) is not interpreted: each remote call a
  handler performs is recorded in an emitted call list, and the eventual
  settlement of the awaited call is an `Except String _` parameter
  (`.error msg` models a thrown `Error` whose `.message` is `msg`).
* JavaScript truthiness of optional strings / numbers (`x || default`,
  `if (result.code)`) is modelled explicitly by the `jsOr*` helpers:
  a missing value and the falsy values `""` / `0` select the default.
* Message ids are built from a `now : Nat` parameter standing for
  `Date.now()`; uniqueness of the fresh ids against the pre-existing
  conversation is a hypothesis where a proof needs it.
* The `setInterval` polling loop is modelled as a small event system
  (`PollerState`, `pollerStep`): `clearInterval` stops future ticks but, as
  in the source, a fetch already in flight still runs its `setActivities`
  continuation when it resolves.
-/

/-- The role of a conversation message (`Message.role` in `types`). -/
inductive Role where
  | user
  | assistant
  deriving DecidableEq, Repr

/-- A conversation turn, mirroring the `Message` interface in `types`:
`id`, `role`, `content`, `timestamp`, and the optional `loading` flag
(absent is modelled as `false`). -/
structure Message where
  id : String
  role : Role
  content : String
  timestamp : Nat
  loading : Bool
  deriving DecidableEq, Repr

/-- An agent-activity record; the orchestrator only stores and forwards
these, never inspects them, so the payload is kept opaque as a string. -/
def Activity := String
deriving instance DecidableEq, Repr for Activity

/-- The `GenerationResult` interface from `types`, plus the `activities`
field that `Generator.tsx` reads off the response at runtime.  Optional
fields are `Option`s. -/
structure GenerationResult where
  success : Bool
  code : Option String
  error : Option String
  attempts : Option Nat
  quality_score : Option Rat
  execution_time : Option Rat
  activities : Option (List Activity)
  deriving DecidableEq, Repr

/-- The settings record parsed from `localStorage` inside
`handleSubmitPrompt`; either field may be missing from the stored JSON. -/
structure StoredSettings where
  temperature : Option Rat
  maxAttempts : Option Nat
  deriving DecidableEq, Repr

/-- The React state of the `Generator` component: `messages`, `loading`,
`lastGenerationResult`, `feedbackSubmitted`, `error`, `activities`. -/
structure GeneratorState where
  messages : List Message
  loading : Bool
  lastGenerationResult : Option GenerationResult
  feedbackSubmitted : Bool
  error : Option String
  activities : List Activity
  deriving DecidableEq, Repr

/-- One transport-client invocation recorded by a handler. -/
inductive TransportCall where
  | generate (prompt apiKey : String) (temperature : Rat) (maxAttempts : Nat)
  | getActivities
  | submitFeedback (code : String) (works : Bool) (reason : Option String)
  deriving DecidableEq, Repr

/-- JavaScript `x || d` on an optional string: a missing value and the
empty string are falsy and select the default. -/
def jsOrStr (x : Option String) (d : String) : String :=
  match x with
  | none => d
  | some s => if s = "" then d else s

/-- JavaScript `x || d` on an optional number: a missing value and `0` are
falsy and select the default. -/
def jsOrRat (x : Option Rat) (d : Rat) : Rat :=
  match x with
  | none => d
  | some v => if v = 0 then d else v

/-- JavaScript `x || d` on an optional integer count. -/
def jsOrNat (x : Option Nat) (d : Nat) : Nat :=
  match x with
  | none => d
  | some v => if v = 0 then d else v

/-- JavaScript truthiness of an optional string (`if (result.code)`):
true exactly when the value is present and non-empty. -/
def jsTruthyStr (x : Option String) : Bool :=
  match x with
  | none => false
  | some s => s != ""

/-- JavaScript `String.prototype.trim()`: strip leading and trailing
whitespace. -/
def jsTrim (s : String) : String :=
  String.mk (((s.data.dropWhile Char.isWhitespace).reverse.dropWhile
    Char.isWhitespace).reverse)

/-- The fixed configuration-error message of the empty-api-key path. -/
def configErrorMessage : String := "Please add your API key in Settings to start."

/-- The fallback failure text `'Failed to generate'`. -/
def failedFallback : String := "Failed to generate"

/-- The user turn appended for a submitted prompt
(`id: Date.now().toString()`). -/
def userTurn (prompt : String) (now : Nat) : Message :=
  { id := toString now, role := .user, content := prompt,
    timestamp := now, loading := false }

/-- The pending placeholder turn (`id: loading-...`, `loading: true`). -/
def loadingTurn (now : Nat) : Message :=
  { id := "loading-" ++ toString now, role := .assistant,
    content := "Generating your Pine Script...",
    timestamp := now, loading := true }

/-- The assistant turn of the empty-api-key path. -/
def configErrorTurn (now : Nat) : Message :=
  { id := "error-" ++ toString now, role := .assistant,
    content := configErrorMessage, timestamp := now, loading := false }

/-- The terminal success turn embedding the generated code. -/
def successTurn (code : String) (now : Nat) : Message :=
  { id := "success-" ++ toString now, role := .assistant,
    content := "✅ Generated successfully!\n\n```pine\n" ++ code ++ "\n```",
    timestamp := now, loading := false }

/-- The error-flavored assistant turn (`❌` prefix). -/
def errorTurn (msg : String) (now : Nat) : Message :=
  { id := "error-" ++ toString now, role := .assistant,
    content := "❌ " ++ msg, timestamp := now, loading := false }

/-- The feedback acknowledgement turn. -/
def feedbackAckTurn (works : Bool) (now : Nat) : Message :=
  { id := "feedback-" ++ toString now, role := .assistant,
    content := if works then "✨ Thanks for the feedback!"
               else "💡 Thank you for reporting this.",
    timestamp := now, loading := false }

/-- `handleSubmitPrompt` from `Generator.tsx`, lines 55-137, as a pure
function of the pre-state, the captured `apiKey`, the settings record
re-parsed from storage, the prompt, the clock, and the settlement of the
awaited `generateScript` call.  Returns the post-state and the transport
calls issued. -/
def handleSubmitPrompt (st : GeneratorState) (apiKey : String)
    (settings : StoredSettings) (prompt : String) (now : Nat)
    (resp : Except String GenerationResult) :
    GeneratorState × List TransportCall :=
  -- setError(null); setFeedbackSubmitted(false); setLastGenerationResult(null)
  let st := { st with error := none, feedbackSubmitted := false,
                      lastGenerationResult := none }
  -- append the user message
  let st := { st with messages := st.messages ++ [userTurn prompt now] }
  if apiKey = "" then
    -- setError(errorMsg); append the assistant config-error message; return
    let st := { st with error := some configErrorMessage,
                        messages := st.messages ++ [configErrorTurn now] }
    (st, [])
  else
    -- append the loading message; setLoading(true); setActivities([])
    let lid := (loadingTurn now).id
    let st := { st with messages := st.messages ++ [loadingTurn now],
                        loading := true, activities := [] }
    let call := TransportCall.generate prompt apiKey
      (jsOrRat settings.temperature (6/10)) (jsOrNat settings.maxAttempts 5)
    match resp with
    | .ok result =>
      -- if (result.activities) setActivities(result.activities)
      let st := { st with activities := match result.activities with
        | some acts => acts
        | none => st.activities }
      -- remove the loading message
      let st := { st with messages := st.messages.filter (fun m => m.id != lid) }
      if result.success && jsTruthyStr result.code then
        -- append the success message; setLastGenerationResult(result)
        let st := { st with
          messages := st.messages ++ [successTurn (result.code.getD "") now],
          lastGenerationResult := some result }
        -- finally: setLoading(false)
        ({ st with loading := false }, [call])
      else
        -- throw new Error(result.error || 'Failed to generate'), caught below:
        -- setError; filter again (no-op); append the ❌ message
        let msg := jsOrStr result.error failedFallback
        let st := { st with error := some msg }
        let st := { st with messages := st.messages.filter (fun m => m.id != lid) }
        let st := { st with messages := st.messages ++ [errorTurn msg now] }
        ({ st with loading := false }, [call])
    | .error e =>
      -- the awaited call threw: setError; remove loading message; append ❌
      let st := { st with error := some e }
      let st := { st with messages := st.messages.filter (fun m => m.id != lid) }
      let st := { st with messages := st.messages ++ [errorTurn e now] }
      ({ st with loading := false }, [call])

/-- `handleSubmitFeedback` from `Generator.tsx`, lines 139-156: guarded by
`lastGenerationResult?.code` being truthy; on a successful transport call
sets `feedbackSubmitted` and appends the acknowledgement turn; a thrown
failure only sets `error`. -/
def handleSubmitFeedback (st : GeneratorState) (works : Bool)
    (reason : Option String) (now : Nat) (resp : Except String Unit) :
    GeneratorState × List TransportCall :=
  match st.lastGenerationResult with
  | none => (st, [])
  | some r =>
    if jsTruthyStr r.code then
      let call := TransportCall.submitFeedback (r.code.getD "") works reason
      match resp with
      | .ok _ =>
        ({ st with feedbackSubmitted := true,
                   messages := st.messages ++ [feedbackAckTurn works now] },
         [call])
      | .error e =>
        ({ st with error := some e }, [call])
    else (st, [])

/-- `ChatInput.handleSubmit` from `ChatInput.tsx`, lines 13-19, wired as in
`Generator.tsx`: `onSubmit` is `handleSubmitPrompt`, `disabled` is
`!apiKey`, `loading` is the store's `loading` flag.  The third component of
the output is the text left in the input box. -/
def chatInputSubmit (st : GeneratorState) (apiKey : String)
    (settings : StoredSettings) (input : String) (now : Nat)
    (resp : Except String GenerationResult) :
    GeneratorState × List TransportCall × String :=
  if jsTrim input != "" && !(apiKey == "") && !st.loading then
    let (st', calls) := handleSubmitPrompt st apiKey settings input now resp
    (st', calls, "")
  else
    (st, [], input)

/-- The detailed ("it failed") branch of `FeedbackForm`: the submit button
is `disabled={loading || !reason.trim()}`, so the submission event only
fires when not loading and the reason is non-blank; it then calls
`onSubmitFeedback(false, reason)` i.e. `handleSubmitFeedback`. -/
def feedbackFormNegativeSubmit (st : GeneratorState) (reason : String)
    (loading : Bool) (now : Nat) (resp : Except String Unit) :
    GeneratorState × List TransportCall :=
  if !loading && jsTrim reason != "" then
    handleSubmitFeedback st false (some reason) now resp
  else
    (st, [])

/-- The state of the activity-polling effect of `Generator.tsx`, lines
34-53: whether the `setInterval` handle is registered, how many
`pollActivities` fetches are currently awaiting `getActivities`, and the
`activities` store they write into. -/
structure PollerState where
  intervalActive : Bool
  inflight : Nat
  activities : List Activity
  deriving DecidableEq, Repr

/-- The asynchronous events of the polling loop. -/
inductive PollerEvent where
  | start
  | tickFire
  | tickResolve (outcome : Except String (List Activity))
  | stop
  deriving Repr

/-- One event step of the polling loop, as the source behaves:
`start` registers the interval (effect body when `loading` turns true);
`tickFire` begins one `pollActivities` run only while the interval is
registered; `tickResolve` is the continuation of an in-flight run — on
success it unconditionally calls `setActivities` (there is no
stopped-check in `pollActivities`), on failure the error is swallowed;
`stop` is the effect cleanup's `clearInterval`, which only prevents
future ticks. -/
def pollerStep (s : PollerState) : PollerEvent → PollerState
  | .start => { s with intervalActive := true }
  | .tickFire =>
      if s.intervalActive then { s with inflight := s.inflight + 1 } else s
  | .tickResolve outcome =>
      if s.inflight = 0 then s
      else
        match outcome with
        | .ok acts => { s with inflight := s.inflight - 1, activities := acts }
        | .error _ => { s with inflight := s.inflight - 1 }
  | .stop => { s with intervalActive := false }

/-- Running a list of poller events from a state. -/
def pollerRun (s : PollerState) (evs : List PollerEvent) : PollerState :=
  evs.foldl pollerStep s

/-! ### Sample values used by witnesses and counterexamples -/

/-- The initial component state: empty conversation, idle. -/
def st0 : GeneratorState :=
  { messages := [], loading := false, lastGenerationResult := none,
    feedbackSubmitted := false, error := none, activities := [] }

/-- A settings record with both tunables missing. -/
def settings0 : StoredSettings := { temperature := none, maxAttempts := none }

/-- A successful generation response carrying code. -/
def rOk : GenerationResult :=
  { success := true, code := some "strategy()", error := none,
    attempts := none, quality_score := none, execution_time := none,
    activities := none }

/-- A domain-failure generation response. -/
def rFail : GenerationResult :=
  { success := false, code := none, error := some "syntax error",
    attempts := none, quality_score := none, execution_time := none,
    activities := none }

/-- A response with `success: true`, no code, and an empty `error` field. -/
def rEmptyError : GenerationResult :=
  { success := true, code := none, error := some "",
    attempts := none, quality_score := none, execution_time := none,
    activities := none }

/-- A state whose current result carries code, as after a success. -/
def stWithResult : GeneratorState := { st0 with lastGenerationResult := some rOk }

/-- A state in the middle of a generation (`loading` true). -/
def stBusy : GeneratorState := { st0 with loading := true }

/-- A poller with the interval registered and one fetch in flight. -/
def pollMid : PollerState := { intervalActive := true, inflight := 1, activities := [] }

/-! ### Helper lemmas -/

/-- A string never equals a non-empty string prepended to itself. -/
lemma self_ne_append_left (s t : String) (ht : t.length ≠ 0) : s ≠ t ++ s := by
  intro he
  have hl := congrArg String.length he
  rw [String.length_append] at hl
  omega

/-- The user turn's id differs from the loading turn's id. -/
lemma userTurn_id_ne (prompt : String) (now : Nat) :
    (userTurn prompt now).id ≠ (loadingTurn now).id := by
  simpa [userTurn, loadingTurn] using
    self_ne_append_left (toString now) "loading-" (by decide)

/-- Filtering out an id that occurs nowhere leaves a list unchanged. -/
lemma filter_fresh_eq_self (ms : List Message) (lid : String)
    (h : ∀ m ∈ ms, m.id ≠ lid) : ms.filter (fun m => m.id != lid) = ms := by
  apply List.filter_eq_self.mpr
  intro m hm
  simpa using h m hm

/-- Filtering the loading id out of the conversation extended by the fresh
user turn is the identity. -/
lemma filter_fresh_user (ms : List Message) (prompt : String) (now : Nat)
    (hfresh : ∀ m ∈ ms, m.id ≠ (loadingTurn now).id) :
    (ms ++ [userTurn prompt now]).filter
      (fun m => m.id != (loadingTurn now).id) = ms ++ [userTurn prompt now] := by
  rw [List.filter_append, filter_fresh_eq_self ms _ hfresh]
  simp [userTurn_id_ne prompt now]

/-- Removing the pending turn deletes exactly the loading placeholder when
its id is fresh for the pre-existing conversation. -/
lemma removePending (ms : List Message) (prompt : String) (now : Nat)
    (hfresh : ∀ m ∈ ms, m.id ≠ (loadingTurn now).id) :
    ((ms ++ [userTurn prompt now]) ++ [loadingTurn now]).filter
      (fun m => m.id != (loadingTurn now).id) = ms ++ [userTurn prompt now] := by
  rw [List.filter_append, filter_fresh_user ms prompt now hfresh]
  simp

/-- The transport call that `handleSubmitPrompt` issues when the key is
configured. -/
def generateCall (prompt apiKey : String) (settings : StoredSettings) : TransportCall :=
  .generate prompt apiKey (jsOrRat settings.temperature (6/10))
    (jsOrNat settings.maxAttempts 5)

/-- With a configured key, `handleSubmitPrompt` issues exactly one
`generateScript` transport call, whatever the settlement. -/
lemma handleSubmitPrompt_calls (st : GeneratorState) (apiKey : String)
    (settings : StoredSettings) (prompt : String) (now : Nat)
    (resp : Except String GenerationResult) (hk : apiKey ≠ "") :
    (handleSubmitPrompt st apiKey settings prompt now resp).2 =
      [generateCall prompt apiKey settings] := by
  cases resp with
  | error e => simp [handleSubmitPrompt, hk, generateCall]
  | ok r =>
    by_cases hs : (r.success && jsTruthyStr r.code) = true
    · simp [handleSubmitPrompt, hk, hs, generateCall]
    · simp [handleSubmitPrompt, hk, hs, generateCall]

/-- With a configured key, `loading` is false after the handler returns,
whatever the settlement (the `finally` block). -/
lemma handleSubmitPrompt_loading_false (st : GeneratorState) (apiKey : String)
    (settings : StoredSettings) (prompt : String) (now : Nat)
    (resp : Except String GenerationResult) (hk : apiKey ≠ "") :
    (handleSubmitPrompt st apiKey settings prompt now resp).1.loading = false := by
  cases resp with
  | error e => simp [handleSubmitPrompt, hk]
  | ok r =>
    by_cases hs : (r.success && jsTruthyStr r.code) = true
    · simp [handleSubmitPrompt, hk, hs]
    · simp [handleSubmitPrompt, hk, hs]

/-- The full post-state of the transport-failure path. -/
lemma handleSubmitPrompt_transport_error (st : GeneratorState) (apiKey : String)
    (settings : StoredSettings) (prompt : String) (now : Nat) (e : String)
    (hk : apiKey ≠ "")
    (hfresh : ∀ m ∈ st.messages, m.id ≠ (loadingTurn now).id) :
    handleSubmitPrompt st apiKey settings prompt now (.error e) =
      ({ st with error := some e, feedbackSubmitted := false,
                 lastGenerationResult := none, loading := false,
                 activities := [],
                 messages := st.messages ++ [userTurn prompt now, errorTurn e now] },
       [generateCall prompt apiKey settings]) := by
  simp only [handleSubmitPrompt, hk, if_neg, ite_false, generateCall]
  rw [removePending st.messages prompt now hfresh]
  simp

/-- The full post-state of the domain-failure / missing-code path: the
response resolved but `result.success && result.code` is falsy. -/
lemma handleSubmitPrompt_ok_failure (st : GeneratorState) (apiKey : String)
    (settings : StoredSettings) (prompt : String) (now : Nat)
    (r : GenerationResult) (hk : apiKey ≠ "")
    (hfail : (r.success && jsTruthyStr r.code) = false)
    (hfresh : ∀ m ∈ st.messages, m.id ≠ (loadingTurn now).id) :
    handleSubmitPrompt st apiKey settings prompt now (.ok r) =
      ({ st with error := some (jsOrStr r.error failedFallback),
                 feedbackSubmitted := false,
                 lastGenerationResult := none, loading := false,
                 activities := (match r.activities with
                   | some acts => acts
                   | none => []),
                 messages := st.messages ++ [userTurn prompt now,
                   errorTurn (jsOrStr r.error failedFallback) now] },
       [generateCall prompt apiKey settings]) := by
  simp only [handleSubmitPrompt, hk, if_neg, ite_false, generateCall, hfail,
    Bool.false_eq_true]
  rw [removePending st.messages prompt now hfresh,
    filter_fresh_user st.messages prompt now hfresh]
  simp


/-! ### Claim theorems -/

/-- C1: For every prompt submission made while the configured API key is the
empty string, the orchestrator never invokes the transport client (no calls
emitted) and never starts the poller (`loading`, hence the polling effect,
is untouched); it appends exactly one user turn followed by exactly one
assistant turn carrying the fixed configuration-error message, sets
`lastError` to that message, and leaves `currentResult` unset. -/
theorem emptyApiKey_halts_without_transport
    (st : GeneratorState) (settings : StoredSettings) (prompt : String)
    (now : Nat) (resp : Except String GenerationResult) :
    handleSubmitPrompt st "" settings prompt now resp =
      ({ st with error := some configErrorMessage,
                 feedbackSubmitted := false,
                 lastGenerationResult := none,
                 messages := st.messages ++ [userTurn prompt now, configErrorTurn now] },
       []) := by
  simp [handleSubmitPrompt]

/-- C2: For every `generate` call that resolves with `success: true` and a
non-empty code payload, the orchestrator removes exactly one pending
(loading) turn, appends exactly one terminal assistant turn embedding the
code, sets `currentResult` to the returned result (so its `code` is the
returned code), and `feedbackSubmitted` is false at that point. -/
theorem generate_success_updates_result
    (st : GeneratorState) (apiKey : String) (settings : StoredSettings)
    (prompt : String) (now : Nat) (r : GenerationResult) (c : String)
    (hk : apiKey ≠ "") (hs : r.success = true) (hc : r.code = some c)
    (hcne : c ≠ "")
    (hfresh : ∀ m ∈ st.messages, m.id ≠ (loadingTurn now).id) :
    (handleSubmitPrompt st apiKey settings prompt now (.ok r)).1.messages =
      st.messages ++ [userTurn prompt now, successTurn c now] ∧
    (handleSubmitPrompt st apiKey settings prompt now (.ok r)).1.lastGenerationResult
      = some r ∧
    (handleSubmitPrompt st apiKey settings prompt now (.ok r)).1.feedbackSubmitted
      = false := by
  simp only [handleSubmitPrompt, if_neg hk, jsTruthyStr, hc, hs]
  rw [removePending st.messages prompt now hfresh]
  simp [hcne, hc]

/-- Witness for C2 at a concrete successful settlement. -/
theorem generate_success_updates_result_witness :
    (handleSubmitPrompt st0 "k" settings0 "p" 0 (.ok rOk)).1.messages =
      st0.messages ++ [userTurn "p" 0, successTurn "strategy()" 0] ∧
    (handleSubmitPrompt st0 "k" settings0 "p" 0 (.ok rOk)).1.lastGenerationResult
      = some rOk ∧
    (handleSubmitPrompt st0 "k" settings0 "p" 0 (.ok rOk)).1.feedbackSubmitted
      = false :=
  generate_success_updates_result st0 "k" settings0 "p" 0 rOk "strategy()"
    (by decide) rfl rfl (by decide) (by simp [st0])

/-- C3: For every `generate` call that settles unsuccessfully — either
resolving with `success: false` or raising a transport failure — the
orchestrator removes the pending turn, appends exactly one error-flavored
assistant turn carrying the failure message, sets `lastError` to that
message, sets `busy` to false, and `currentResult` remains unset. -/
theorem generate_failure_sets_error
    (st : GeneratorState) (apiKey : String) (settings : StoredSettings)
    (prompt : String) (now : Nat)
    (hk : apiKey ≠ "")
    (hfresh : ∀ m ∈ st.messages, m.id ≠ (loadingTurn now).id) :
    (∀ e : String,
      handleSubmitPrompt st apiKey settings prompt now (.error e) =
        ({ st with error := some e, feedbackSubmitted := false,
                   lastGenerationResult := none, loading := false,
                   activities := [],
                   messages := st.messages ++ [userTurn prompt now, errorTurn e now] },
         [generateCall prompt apiKey settings])) ∧
    (∀ r : GenerationResult, r.success = false →
      handleSubmitPrompt st apiKey settings prompt now (.ok r) =
        ({ st with error := some (jsOrStr r.error failedFallback),
                   feedbackSubmitted := false,
                   lastGenerationResult := none, loading := false,
                   activities := (match r.activities with
                     | some acts => acts
                     | none => []),
                   messages := st.messages ++ [userTurn prompt now,
                     errorTurn (jsOrStr r.error failedFallback) now] },
         [generateCall prompt apiKey settings])) := by
  constructor
  · intro e
    exact handleSubmitPrompt_transport_error st apiKey settings prompt now e hk hfresh
  · intro r hr
    exact handleSubmitPrompt_ok_failure st apiKey settings prompt now r hk
      (by simp [hr]) hfresh

/-- Witness for C3 at a concrete domain failure. -/
theorem generate_failure_sets_error_witness :
    handleSubmitPrompt st0 "k" settings0 "p" 0 (.ok rFail) =
      ({ st0 with error := some "syntax error", feedbackSubmitted := false,
                  lastGenerationResult := none, loading := false,
                  activities := [],
                  messages := st0.messages ++ [userTurn "p" 0,
                    errorTurn "syntax error" 0] },
       [generateCall "p" "k" settings0]) := by
  have h := (generate_failure_sets_error st0 "k" settings0 "p" 0
    (by decide) (by simp [st0])).2 rFail rfl
  simpa [rFail, jsOrStr, failedFallback] using h

/-- C4: For every prompt-submission execution, `busy` is set to true iff a
`generate` call is issued (equivalently: the call list is empty iff the key
is unconfigured, and `loading` is untouched on the no-call path), and
`busy` is reset to false on every exit path of the generation attempt, so
after settlement `busy` is always false. -/
theorem busy_reset_and_call_iff_key
    (st : GeneratorState) (apiKey : String) (settings : StoredSettings)
    (prompt : String) (now : Nat) (resp : Except String GenerationResult) :
    ((handleSubmitPrompt st apiKey settings prompt now resp).2 = [] ↔ apiKey = "") ∧
    (apiKey ≠ "" →
      (handleSubmitPrompt st apiKey settings prompt now resp).1.loading = false) ∧
    (apiKey = "" →
      (handleSubmitPrompt st apiKey settings prompt now resp).1.loading = st.loading) := by
  by_cases hk : apiKey = ""
  · subst hk
    refine ⟨by simp [handleSubmitPrompt], by simp, by simp [handleSubmitPrompt]⟩
  · refine ⟨?_, fun _ => handleSubmitPrompt_loading_false st apiKey settings prompt now resp hk,
      fun h => absurd h hk⟩
    rw [handleSubmitPrompt_calls st apiKey settings prompt now resp hk]
    simp [hk]

/-- Witness for C4: after a settled attempt with a configured key, `busy`
is false. -/
theorem busy_reset_and_call_iff_key_witness :
    (handleSubmitPrompt st0 "k" settings0 "p" 0 (.error "boom")).1.loading = false :=
  (busy_reset_and_call_iff_key st0 "k" settings0 "p" 0 (.error "boom")).2.1 (by decide)

/-- C5 counterexample: a poll tick already in flight when the poller is
stopped is NOT discarded — when it resolves it still writes its snapshot
into the store, so the store changes after `stop`.  Start from a poller
with one fetch in flight and an empty store, stop it, then let the
in-flight tick resolve: the store now holds the late snapshot. -/
theorem inflight_tick_written_after_stop :
    (pollerRun pollMid [.stop, .tickResolve (.ok (["late"] : List Activity))]).activities
        = (["late"] : List Activity) ∧
    pollMid.activities = ([] : List Activity) ∧
    (["late"] : List Activity) ≠ ([] : List Activity) :=
  ⟨rfl, rfl, by decide⟩

/-- C5 (amended): after every terminal resolution of `generate` the
handler leaves `loading` false (which unregisters the interval), a stopped
poller schedules no further ticks and a failed tick writes nothing; but a
tick already in flight when the poller is stopped still writes its
successfully fetched snapshot to the store when it resolves, rather than
discarding it. -/
theorem poller_stop_only_blocks_future_ticks
    (s : PollerState) (acts : List Activity) (e : String)
    (st : GeneratorState) (apiKey : String) (settings : StoredSettings)
    (prompt : String) (now : Nat) (resp : Except String GenerationResult)
    (hk : apiKey ≠ "") :
    (handleSubmitPrompt st apiKey settings prompt now resp).1.loading = false ∧
    (pollerStep s .stop).intervalActive = false ∧
    (s.intervalActive = false → pollerStep s .tickFire = s) ∧
    (s.inflight ≠ 0 →
      (pollerStep s (.tickResolve (.error e))).activities = s.activities) ∧
    (s.inflight ≠ 0 →
      (pollerStep s (.tickResolve (.ok acts))).activities = acts) := by
  refine ⟨handleSubmitPrompt_loading_false st apiKey settings prompt now resp hk,
    rfl, ?_, ?_, ?_⟩
  · intro h
    simp [pollerStep, h]
  · intro h
    simp [pollerStep, h]
  · intro h
    simp [pollerStep, h]

/-- Witness for the amended C5 at a concrete stopped poller with one
in-flight tick. -/
theorem poller_stop_only_blocks_future_ticks_witness :
    (pollerStep { pollMid with intervalActive := false }
        (.tickResolve (.ok (["late"] : List Activity)))).activities
      = (["late"] : List Activity) :=
  (poller_stop_only_blocks_future_ticks { pollMid with intervalActive := false }
    (["late"] : List Activity) "err" st0 "k" settings0 "p" 0 (.ok rOk)
    (by decide)).2.2.2.2 (by decide)

/-- C6: while `busy` (`loading`) is true, a prompt submission through the
chat input is rejected with no side effects: no conversation turn, no
transport call, store unchanged, and the typed input is retained. -/
theorem busy_submission_is_noop
    (st : GeneratorState) (apiKey : String) (settings : StoredSettings)
    (input : String) (now : Nat) (resp : Except String GenerationResult)
    (hb : st.loading = true) :
    chatInputSubmit st apiKey settings input now resp = (st, [], input) := by
  simp [chatInputSubmit, hb]

/-- Witness for C6 at a concrete busy state. -/
theorem busy_submission_is_noop_witness :
    chatInputSubmit stBusy "k" settings0 "go" 0 (.ok rOk) = (stBusy, [], "go") :=
  busy_submission_is_noop stBusy "k" settings0 "go" 0 (.ok rOk) rfl

/-- C7: a negative feedback submission with no collected reason (blank
after trimming) is rejected locally — no transport call, store unchanged —
while a negative submission with a non-blank reason, made while not busy
with a current result carrying code, issues exactly one transport call. -/
theorem negative_feedback_requires_reason
    (st : GeneratorState) (reason : String) (loading : Bool) (now : Nat)
    (resp : Except String Unit) :
    (jsTrim reason = "" →
      feedbackFormNegativeSubmit st reason loading now resp = (st, [])) ∧
    (∀ (r : GenerationResult) (c : String), loading = false → jsTrim reason ≠ "" →
      st.lastGenerationResult = some r → r.code = some c → c ≠ "" →
      (feedbackFormNegativeSubmit st reason loading now resp).2 =
        [TransportCall.submitFeedback c false (some reason)]) := by
  constructor
  · intro h
    simp [feedbackFormNegativeSubmit, h]
  · intro r c hl hne hres hc hcne
    cases resp with
    | ok u =>
      simp [feedbackFormNegativeSubmit, hl, hne, handleSubmitFeedback, hres,
        jsTruthyStr, hc, hcne]
    | error e =>
      simp [feedbackFormNegativeSubmit, hl, hne, handleSubmitFeedback, hres,
        jsTruthyStr, hc, hcne]

/-- Witness for C7: one transport call at a concrete non-blank reason. -/
theorem negative_feedback_requires_reason_witness :
    (feedbackFormNegativeSubmit stWithResult "bad" false 0 (.ok ())).2 =
      [TransportCall.submitFeedback "strategy()" false (some "bad")] :=
  (negative_feedback_requires_reason stWithResult "bad" false 0 (.ok ())).2
    rOk "strategy()" rfl (by decide) rfl rfl (by decide)

/-- C8: for a feedback submission made when `currentResult` is set and
carries code, a successful transport call sets `feedbackSubmitted` and
appends exactly one acknowledgement turn; a failed transport call sets
`lastError`, leaves `feedbackSubmitted` as it was, and leaves the
conversation unchanged. -/
theorem feedback_settlement_effects
    (st : GeneratorState) (works : Bool) (reason : Option String) (now : Nat)
    (r : GenerationResult) (c : String)
    (hres : st.lastGenerationResult = some r) (hc : r.code = some c)
    (hcne : c ≠ "") :
    (handleSubmitFeedback st works reason now (.ok ()) =
      ({ st with feedbackSubmitted := true,
                 messages := st.messages ++ [feedbackAckTurn works now] },
       [TransportCall.submitFeedback c works reason])) ∧
    (∀ e : String, handleSubmitFeedback st works reason now (.error e) =
      ({ st with error := some e },
       [TransportCall.submitFeedback c works reason])) := by
  constructor
  · simp [handleSubmitFeedback, hres, jsTruthyStr, hc, hcne]
  · intro e
    simp [handleSubmitFeedback, hres, jsTruthyStr, hc, hcne]

/-- Witness for C8 at a concrete state holding a result with code. -/
theorem feedback_settlement_effects_witness :
    handleSubmitFeedback stWithResult true none 0 (.ok ()) =
      ({ stWithResult with feedbackSubmitted := true,
                           messages := stWithResult.messages ++ [feedbackAckTurn true 0] },
       [TransportCall.submitFeedback "strategy()" true none]) :=
  (feedback_settlement_effects stWithResult true none 0 rOk "strategy()"
    rfl rfl (by decide)).1

/-- C9 counterexample: a `generate` response with `success: true`, no code,
and a *present but empty* `error` field.  The claim says the appended error
turn's message is the response's error field whenever that field is
present; the code instead treats the empty string as absent
(`result.error || 'Failed to generate'`) and appends the fallback text. -/
theorem empty_error_field_uses_fallback :
    rEmptyError.success = true ∧
    rEmptyError.code = none ∧
    rEmptyError.error = some "" ∧
    ((handleSubmitPrompt st0 "k" settings0 "p" 0 (.ok rEmptyError)).1.messages.map
        Message.content) = ["p", "❌ " ++ failedFallback] ∧
    ("❌ " ++ failedFallback) ≠ ("❌ " ++ "") :=
  ⟨rfl, rfl, rfl, by decide, by decide⟩

/-- C9 (amended): for every `generate` call that resolves with
`success: true` but a missing or empty code field, the orchestrator takes
the generic error path: the pending turn is removed, an error-flavored
assistant turn is appended whose message is the response's error field if
that field is present *and non-empty*, and otherwise the fixed fallback
text "Failed to generate"; `lastError` is set to the same message and
`currentResult` remains unset. -/
theorem success_without_code_generic_error
    (st : GeneratorState) (apiKey : String) (settings : StoredSettings)
    (prompt : String) (now : Nat) (r : GenerationResult)
    (hk : apiKey ≠ "") (_hs : r.success = true)
    (hcode : r.code = none ∨ r.code = some "")
    (hfresh : ∀ m ∈ st.messages, m.id ≠ (loadingTurn now).id) :
    ((handleSubmitPrompt st apiKey settings prompt now (.ok r)).1.messages =
      st.messages ++ [userTurn prompt now,
        errorTurn (jsOrStr r.error failedFallback) now]) ∧
    ((handleSubmitPrompt st apiKey settings prompt now (.ok r)).1.error =
      some (jsOrStr r.error failedFallback)) ∧
    ((handleSubmitPrompt st apiKey settings prompt now (.ok r)).1.lastGenerationResult
      = none) ∧
    (∀ s : String, r.error = some s → s ≠ "" → jsOrStr r.error failedFallback = s) ∧
    ((r.error = none ∨ r.error = some "") →
      jsOrStr r.error failedFallback = failedFallback) := by
  have hfail : (r.success && jsTruthyStr r.code) = false := by
    rcases hcode with h | h <;> simp [jsTruthyStr, h]
  have hmain := handleSubmitPrompt_ok_failure st apiKey settings prompt now r hk
    hfail hfresh
  refine ⟨by rw [hmain], by rw [hmain], by rw [hmain], ?_, ?_⟩
  · intro s hse hsne
    simp [jsOrStr, hse, hsne]
  · intro h
    rcases h with h | h <;> simp [jsOrStr, h]

/-- Witness for the amended C9 at the concrete empty-error response. -/
theorem success_without_code_generic_error_witness :
    (handleSubmitPrompt st0 "k" settings0 "p" 0 (.ok rEmptyError)).1.error =
      some (jsOrStr rEmptyError.error failedFallback) :=
  (success_without_code_generic_error st0 "k" settings0 "p" 0 rEmptyError
    (by decide) rfl (Or.inl rfl) (by simp [st0])).2.1

/-- C10: for every prompt submission with a non-empty API key, the single
`generate` transport call substitutes the default temperature `0.6` when
the stored temperature is missing or falsy (`0`), and the default
`maxAttempts` `5` when that value is missing or falsy. -/
theorem missing_settings_use_defaults
    (st : GeneratorState) (apiKey : String) (settings : StoredSettings)
    (prompt : String) (now : Nat) (resp : Except String GenerationResult)
    (hk : apiKey ≠ "") :
    ((handleSubmitPrompt st apiKey settings prompt now resp).2 =
      [TransportCall.generate prompt apiKey (jsOrRat settings.temperature (6/10))
        (jsOrNat settings.maxAttempts 5)]) ∧
    ((settings.temperature = none ∨ settings.temperature = some 0) →
      jsOrRat settings.temperature (6/10) = 6/10) ∧
    ((settings.maxAttempts = none ∨ settings.maxAttempts = some 0) →
      jsOrNat settings.maxAttempts 5 = 5) := by
  refine ⟨handleSubmitPrompt_calls st apiKey settings prompt now resp hk, ?_, ?_⟩
  · intro h
    rcases h with h | h <;> simp [jsOrRat, h]
  · intro h
    rcases h with h | h <;> simp [jsOrNat, h]

/-- Witness for C10: with both tunables missing, the issued call carries
`0.6` and `5`. -/
theorem missing_settings_use_defaults_witness :
    (handleSubmitPrompt st0 "k" settings0 "p" 0 (.error "x")).2 =
      [TransportCall.generate "p" "k" ((6 : Rat)/10) 5] := by
  have h := missing_settings_use_defaults st0 "k" settings0 "p" 0 (.error "x")
    (by decide)
  rw [h.1]
  rfl
